import Mathlib

/-!
Verification development for the warden admission-control gatekeeper:
a shallow embedding of the image trust validator (`internal/validate`)
and the webhook configuration reconciler (`internal/webhook/certs`),
with theorems settling the specification's claims against it.

Go errors are modelled as their message strings (`GoErr`); the external
collaborators (notary repository client factory, registry manifest
fetch, cluster object store) are modelled as oracle fields / parameters,
so that theorems quantify over every possible collaborator behaviour.
-/

namespace Warden

/-- A Go `error` carries a message string in this embedding. -/
abbrev GoErr := String

/-! ## Image trust validator (`internal/validate/image.go`) -/

/-- Embedding of Go `strings.Split(s, sep)` for a one-character separator,
on the character list: `n` separator occurrences yield `n+1` parts. -/
def splitChars (sep : Char) : List Char → List (List Char)
  | [] => [[]]
  | c :: cs =>
    if c = sep then [] :: splitChars sep cs
    else
      match splitChars sep cs with
      | [] => [[c]]
      | p :: ps => (c :: p) :: ps

/-- `strings.Split(image, tagDelim)` with `tagDelim = ":"`. -/
def goSplit (s : String) : List String :=
  (splitChars ':' s.toList).map (fun l => String.mk l)

/-- Embedding of Go `strings.HasPrefix(s, pre)`. -/
def strHasPre (s pre : String) : Bool :=
  pre.toList.isPrefixOf s.toList

/-- A notary trust target: `Hashes` embeds the Go `map[string][]byte`
as an association list from role/signer key to content-hash bytes. -/
structure Target where
  Hashes : List (String × List Nat)

/-- The `notaryService` struct. `AllowedRegistries` comes from
`ServiceConfig`; `NewRepoClient` is the `RepoFactory` collaborator with
the service's `NotaryConfig` already applied (the factory yields either
an error or a client, itself a function from a tag to a target);
`registryManifestDigest` is the registry collaborator chain used by
`getImageDigestHash` (`name.ParseReference`, `remote.Image`,
`Manifest`, hex decode), returning the decoded digest bytes or the
wrapped error of whichever step failed. -/
structure NotaryService where
  AllowedRegistries : List String
  NewRepoClient : String → Except GoErr (String → Except GoErr Target)
  registryManifestDigest : String → Except GoErr (List Nat)

/-- `notaryService.isImageAllowed`: the repository is allowed when some
entry of `AllowedRegistries` is a leading substring of it (the Go loop
returns on the first match, which is `List.any`). -/
def isImageAllowed (s : NotaryService) (imgRepo : String) : Bool :=
  s.AllowedRegistries.any (fun allowed => strHasPre imgRepo allowed)

/-- The loop body of Go `subtle.ConstantTimeCompare`: walks the two
byte sequences in lockstep, OR-accumulating the XOR of each byte pair
into `v`; the second component counts how many byte positions were
inspected. -/
def ctcFold : List Nat → List Nat → Nat → Nat × Nat
  | a :: xs, b :: ys, v =>
    let r := ctcFold xs ys (v ||| (a ^^^ b))
    (r.1, r.2 + 1)
  | _, _, v => (v, 0)

/-- Go `subtle.ConstantTimeCompare(x, y)`: `0` when the lengths differ;
otherwise `1` exactly when the OR-accumulation of all bytewise XORs is
zero. -/
def constantTimeCompare (x y : List Nat) : Nat :=
  if x.length ≠ y.length then 0
  else if (ctcFold x y 0).1 = 0 then 1 else 0

/-- How many byte positions the comparison loop of
`constantTimeCompare` inspects on equal-length inputs. -/
def ctcInspected (x y : List Nat) : Nat :=
  (ctcFold x y 0).2

/-- The Go loop `for i := range target.Hashes { key = i }`: the key
left in `key` after iterating, starting from `""`. -/
def lastKey (hashes : List (String × List Nat)) : String :=
  hashes.foldl (fun _ p => p.1) ""

/-- Go map indexing `target.Hashes[key]`: the value stored at `key`,
or the zero value (empty byte slice) when the key is absent. -/
def mapIndex (hashes : List (String × List Nat)) (key : String) : List Nat :=
  match hashes.find? (fun p => p.1 == key) with
  | some p => p.2
  | none => []

/-- `notaryService.getNotaryImageDigestHash`: rejects empty repository
or tag, constructs the repository client, looks the tag up, rejects a
target with zero hashes or with more than one, and otherwise returns
the hash found under the last-iterated key. -/
def getNotaryImageDigestHash (s : NotaryService) (imgRepo imgTag : String) :
    Except GoErr (List Nat) :=
  if imgRepo.length = 0 ∨ imgTag.length = 0 then .error "empty arguments provided"
  else
    match s.NewRepoClient imgRepo with
    | .error e => .error e
    | .ok c =>
      match c imgTag with
      | .error e => .error e
      | .ok target =>
        if target.Hashes.length = 0 then .error "image hash is missing"
        else if target.Hashes.length > 1 then .error "more than one hash for image"
        else .ok (mapIndex target.Hashes (lastKey target.Hashes))

/-- `notaryService.getImageDigestHash`: rejects the empty image string,
then runs the registry collaborator chain. -/
def getImageDigestHash (s : NotaryService) (image : String) :
    Except GoErr (List Nat) :=
  if image.length = 0 then .error "empty image provided"
  else s.registryManifestDigest image

/-- `notaryService.Validate`: split the reference on `":"`, require
exactly two parts, let allow-listed repositories bypass verification,
otherwise fetch the notary digest and the registry digest and compare
them in constant time. -/
def Validate (s : NotaryService) (image : String) : Except GoErr Unit :=
  let split := goSplit image
  if split.length ≠ 2 then .error "image name is not formatted correctly"
  else
    let imgRepo := split.getD 0 ""
    let imgTag := split.getD 1 ""
    if isImageAllowed s imgRepo then .ok ()
    else
      match getNotaryImageDigestHash s imgRepo imgTag with
      | .error e => .error e
      | .ok expectedShaBytes =>
        match getImageDigestHash s image with
        | .error e => .error e
        | .ok shaBytes =>
          if constantTimeCompare shaBytes expectedShaBytes = 0 then
            .error "unexpected image hash value"
          else .ok ()

/-! ## Webhook configuration reconciler (`internal/webhook/certs/webhook.go`) -/

/-- `admissionregistrationv1.FailurePolicyType`. -/
inductive FailurePolicyType where
  | Fail
  | Ignore
deriving DecidableEq

/-- `admissionregistrationv1.MatchPolicyType`. -/
inductive MatchPolicyType where
  | Exact
  | Equivalent
deriving DecidableEq

/-- `admissionregistrationv1.ReinvocationPolicyType`. -/
inductive ReinvocationPolicyType where
  | NeverReinvocationPolicy
  | IfNeededReinvocationPolicy
deriving DecidableEq

/-- `admissionregistrationv1.ScopeType` (`"Cluster"`, `"Namespaced"`, `"*"`). -/
inductive ScopeType where
  | ClusterScope
  | NamespacedScope
  | AllScopes
deriving DecidableEq

/-- `admissionregistrationv1.SideEffectClass`; `NoneClass` stands for
the Go constant `SideEffectClassNone`. -/
inductive SideEffectClass where
  | UnknownClass
  | NoneClass
  | SomeClass
  | NoneOnDryRunClass
deriving DecidableEq

/-- `admissionregistrationv1.OperationType`. -/
inductive OperationType where
  | OperationAll
  | Create
  | Update
  | Delete
  | Connect
deriving DecidableEq

/-- `admissionregistrationv1.Rule`. -/
structure Rule where
  APIGroups : List String
  APIVersions : List String
  Resources : List String
  Scope : Option ScopeType
deriving DecidableEq

/-- `admissionregistrationv1.RuleWithOperations`. -/
structure RuleWithOperations where
  Rule : Rule
  Operations : List OperationType
deriving DecidableEq

/-- `admissionregistrationv1.ServiceReference` (pointer fields become
`Option`). -/
structure ServiceReference where
  Namespace : String
  Name : String
  Path : Option String
  Port : Option Int
deriving DecidableEq

/-- `admissionregistrationv1.WebhookClientConfig`; the CA bundle is a
byte sequence. -/
structure WebhookClientConfig where
  CABundle : List Nat
  Service : Option ServiceReference
deriving DecidableEq

/-- `admissionregistrationv1.MutatingWebhook` (the fields this program
sets; pointer fields become `Option`). -/
structure MutatingWebhook where
  Name : String
  AdmissionReviewVersions : List String
  ClientConfig : WebhookClientConfig
  FailurePolicy : Option FailurePolicyType
  MatchPolicy : Option MatchPolicyType
  ReinvocationPolicy : Option ReinvocationPolicyType
  Rules : List RuleWithOperations
  SideEffects : Option SideEffectClass
  TimeoutSeconds : Option Int
deriving DecidableEq

/-- `admissionregistrationv1.ValidatingWebhook` (no reinvocation
policy field exists on this kind). -/
structure ValidatingWebhook where
  Name : String
  AdmissionReviewVersions : List String
  ClientConfig : WebhookClientConfig
  FailurePolicy : Option FailurePolicyType
  MatchPolicy : Option MatchPolicyType
  Rules : List RuleWithOperations
  SideEffects : Option SideEffectClass
  TimeoutSeconds : Option Int
deriving DecidableEq

/-- `metav1.ObjectMeta`, restricted to representative fields; the
reconciler treats it opaquely (copies it whole), so the selection of
fields does not matter for the claims. -/
structure ObjectMeta where
  Name : String
  ResourceVersion : String
  UID : String
  Labels : List (String × String)
  Annotations : List (String × String)
deriving DecidableEq

/-- `admissionregistrationv1.MutatingWebhookConfiguration`. -/
structure MutatingWebhookConfiguration where
  ObjectMeta : ObjectMeta
  Webhooks : List MutatingWebhook
deriving DecidableEq

/-- `admissionregistrationv1.ValidatingWebhookConfiguration`. -/
structure ValidatingWebhookConfiguration where
  ObjectMeta : ObjectMeta
  Webhooks : List ValidatingWebhook
deriving DecidableEq

/-- `certs.WebhookConfig` (the field name `CABundel` is the source's
spelling). -/
structure WebhookConfig where
  CABundel : List Nat
  ServiceNamespace : String
  ServiceName : String
deriving DecidableEq

/-- Go constant `MutatingWebhook` of type `WebHookType`. -/
def MutatingWebhookType : String := "Mutating"

/-- Go constant `ValidatingWebHook` of type `WebHookType`. -/
def ValidatingWebHookType : String := "Validating"

/-- Go constant `DefaultingWebhookName`. -/
def DefaultingWebhookName : String := "defaulting.webhook.warden.kyma-project.io"

/-- Go constant `ValidationWebhookName`. -/
def ValidationWebhookName : String := "validation.webhook.warden.kyma-project.io"

/-- Go constant `WebhookTimeout`. -/
def WebhookTimeout : Int := 15

/-- Go constant `PodValidationPath`. -/
def PodValidationPath : String := "/validation/pods"

/-- Modelled from the spec: the constant `defaulting.WebhookPath` lives
in the `internal/webhook/defaulting` package, which is not under `src/`;
the spec only says the mutating webhook routes to "a fixed internal
path", so the value here is an arbitrary fixed string no claim depends
on. -/
def defaultingWebhookPath : String := "/defaulting/pods"

/-- `corev1.GroupName` (the empty string for the core API group). -/
def coreGroupName : String := ""

/-- `corev1.SchemeGroupVersion.Version`. -/
def coreVersion : String := "v1"

/-- `string(corev1.ResourcePods)`. -/
def resourcePods : String := "pods"

/-- `certs.getFunctionMutatingWebhookCfg`. -/
def getFunctionMutatingWebhookCfg (config : WebhookConfig) : MutatingWebhook :=
  { Name := DefaultingWebhookName
    AdmissionReviewVersions := ["v1beta1", "v1"]
    ClientConfig :=
      { CABundle := config.CABundel
        Service := some
          { Namespace := config.ServiceNamespace
            Name := config.ServiceName
            Path := some defaultingWebhookPath
            Port := some 443 } }
    FailurePolicy := some .Fail
    MatchPolicy := some .Exact
    ReinvocationPolicy := some .NeverReinvocationPolicy
    Rules := [
      { Rule :=
          { APIGroups := [coreGroupName]
            APIVersions := [coreVersion]
            Resources := [resourcePods]
            Scope := some .AllScopes }
        Operations := [.Create, .Update] }]
    SideEffects := some .NoneClass
    TimeoutSeconds := some WebhookTimeout }

/-- `certs.createMutatingWebhookConfiguration`. -/
def createMutatingWebhookConfiguration (config : WebhookConfig) :
    MutatingWebhookConfiguration :=
  { ObjectMeta :=
      { Name := DefaultingWebhookName
        ResourceVersion := ""
        UID := ""
        Labels := []
        Annotations := [] }
    Webhooks := [getFunctionMutatingWebhookCfg config] }

/-- `certs.createValidatingWebhookConfiguration`. -/
def createValidatingWebhookConfiguration (config : WebhookConfig) :
    ValidatingWebhookConfiguration :=
  { ObjectMeta :=
      { Name := ValidationWebhookName
        ResourceVersion := ""
        UID := ""
        Labels := []
        Annotations := [] }
    Webhooks := [
      { Name := ValidationWebhookName
        AdmissionReviewVersions := ["v1beta1", "v1"]
        ClientConfig :=
          { CABundle := config.CABundel
            Service := some
              { Namespace := config.ServiceNamespace
                Name := config.ServiceName
                Path := some PodValidationPath
                Port := some 443 } }
        FailurePolicy := some .Ignore
        MatchPolicy := some .Exact
        Rules := [
          { Rule :=
              { APIGroups := [coreGroupName]
                APIVersions := [coreVersion]
                Resources := [resourcePods]
                Scope := some .AllScopes }
            Operations := [.Create, .Update] }]
        SideEffects := some .NoneClass
        TimeoutSeconds := some WebhookTimeout }] }

/-- Outcome of `client.Get` on the fixed well-known name:
found (with the live object), a not-found error (whose content the
code discards), or any other error. -/
inductive GetResult (α : Type) where
  | found : α → GetResult α
  | notFound : GetResult α
  | otherErr : GoErr → GetResult α

/-- Oracle for the cluster object store restricted to one object kind:
the outcome of `Get` on the fixed name, and the error outcomes `Create`
and `Update` would report if invoked. -/
structure ClusterClient (α : Type) where
  getResult : GetResult α
  createResult : Except GoErr Unit
  updateResult : Except GoErr Unit

/-- A write issued against the cluster object store, carrying the full
object written. -/
inductive WriteOp where
  | createM : MutatingWebhookConfiguration → WriteOp
  | updateM : MutatingWebhookConfiguration → WriteOp
  | createV : ValidatingWebhookConfiguration → WriteOp
  | updateV : ValidatingWebhookConfiguration → WriteOp
deriving DecidableEq

/-- `errors.Wrap(err, msg)` from `github.com/pkg/errors`: `nil` stays
`nil`; an error's message becomes `msg ++ ": " ++` the original. -/
def wrapErr (msg : String) : Except GoErr Unit → Except GoErr Unit
  | .ok () => .ok ()
  | .error e => .error (msg ++ ": " ++ e)

/-- `certs.ensureMutatingWebhookConfigFor`; returns the Go result
paired with the list of writes issued. -/
def ensureMutatingWebhookConfigFor
    (client : ClusterClient MutatingWebhookConfiguration)
    (config : WebhookConfig) : Except GoErr Unit × List WriteOp :=
  match client.getResult with
  | .notFound =>
    (wrapErr "while creating webhook mutation configuration" client.createResult,
     [WriteOp.createM (createMutatingWebhookConfiguration config)])
  | .otherErr e =>
    (.error ("failed to get defaulting MutatingWebhookConfiguration: "
       ++ DefaultingWebhookName ++ ": " ++ e), [])
  | .found mwhc =>
    let ensuredMwhc := createMutatingWebhookConfiguration config
    if ensuredMwhc.Webhooks = mwhc.Webhooks then (.ok (), [])
    else
      (wrapErr "while updating webhook mutation configuration" client.updateResult,
       [WriteOp.updateM { ensuredMwhc with ObjectMeta := mwhc.ObjectMeta }])

/-- `certs.ensureValidatingWebhookConfigFor`; unlike the mutating
variant, its create/update errors are returned without wrapping. -/
def ensureValidatingWebhookConfigFor
    (client : ClusterClient ValidatingWebhookConfiguration)
    (config : WebhookConfig) : Except GoErr Unit × List WriteOp :=
  match client.getResult with
  | .notFound =>
    (client.createResult,
     [WriteOp.createV (createValidatingWebhookConfiguration config)])
  | .otherErr e =>
    (.error ("failed to get validation ValidatingWebhookConfiguration: "
       ++ ValidationWebhookName ++ ": " ++ e), [])
  | .found vwhc =>
    let ensuredVwhc := createValidatingWebhookConfiguration config
    if ensuredVwhc.Webhooks = vwhc.Webhooks then (.ok (), [])
    else
      (client.updateResult,
       [WriteOp.updateV { ensuredVwhc with ObjectMeta := vwhc.ObjectMeta }])

/-- `certs.EnsureWebhookConfigurationFor`: dispatches on the webhook
type string; the generic Go client is embedded as one oracle per
object kind. -/
def EnsureWebhookConfigurationFor (wt : String)
    (mClient : ClusterClient MutatingWebhookConfiguration)
    (vClient : ClusterClient ValidatingWebhookConfiguration)
    (config : WebhookConfig) : Except GoErr Unit × List WriteOp :=
  if wt = MutatingWebhookType then ensureMutatingWebhookConfigFor mClient config
  else ensureValidatingWebhookConfigFor vClient config

/-! ### Concrete instances used to instantiate the theorems -/

/-- A one-entry trust target carrying the digest bytes `[222, 173]`. -/
def exampleTarget : Target := { Hashes := [("targets", [222, 173])] }

/-- A trust-repository client that returns `exampleTarget` for every tag. -/
def exampleClient : String → Except GoErr Target := fun _ => .ok exampleTarget

/-- A notary service with an empty allow list whose collaborators both
report the digest `[222, 173]`. -/
def exampleService : NotaryService :=
  { AllowedRegistries := []
    NewRepoClient := fun _ => .ok exampleClient
    registryManifestDigest := fun _ => .ok [222, 173] }

/-- A trust target with no hash entries. -/
def exampleEmptyTarget : Target := { Hashes := [] }

/-- A client that returns the hashless target for every tag. -/
def exampleEmptyClient : String → Except GoErr Target := fun _ => .ok exampleEmptyTarget

/-- A notary service whose trust lookups yield a target without hashes. -/
def exampleEmptyService : NotaryService :=
  { AllowedRegistries := []
    NewRepoClient := fun _ => .ok exampleEmptyClient
    registryManifestDigest := fun _ => .ok [222, 173] }

/-- A trust target with two hash entries. -/
def exampleAmbiguousTarget : Target :=
  { Hashes := [("targets", [222, 173]), ("release", [190, 239])] }

/-- A client that returns the two-entry target for every tag. -/
def exampleAmbiguousClient : String → Except GoErr Target :=
  fun _ => .ok exampleAmbiguousTarget

/-- A notary service whose trust lookups yield the two-entry target. -/
def exampleAmbiguousService : NotaryService :=
  { AllowedRegistries := []
    NewRepoClient := fun _ => .ok exampleAmbiguousClient
    registryManifestDigest := fun _ => .ok [222, 173] }

/-- A notary service whose registry collaborator reports a digest that
differs from the trust digest in the last byte. -/
def exampleMismatchService : NotaryService :=
  { AllowedRegistries := []
    NewRepoClient := fun _ => .ok exampleClient
    registryManifestDigest := fun _ => .ok [222, 174] }

/-- A concrete webhook configuration input. -/
def exampleConfig : WebhookConfig :=
  { CABundel := [1, 2, 3], ServiceNamespace := "warden-ns", ServiceName := "warden-svc" }

/-- A live object metadata distinct from the freshly built one, to
exercise metadata preservation. -/
def exampleMeta : ObjectMeta :=
  { Name := DefaultingWebhookName
    ResourceVersion := "42"
    UID := "uid-1"
    Labels := [("app", "warden")]
    Annotations := [("note", "live")] }

/-- A notary service whose only allow-list entry is the empty string
and whose collaborators refuse every call. -/
def exampleOpenService : NotaryService :=
  { AllowedRegistries := [""]
    NewRepoClient := fun _ => .error "it shouldn't be called"
    registryManifestDigest := fun _ => .error "it shouldn't be called" }

deriving instance DecidableEq for Except

/-! ## Lemmas and claim theorems -/

theorem lor_eq_zero_iff' (m n : Nat) : m ||| n = 0 ↔ m = 0 ∧ n = 0 := by
  constructor
  · intro h
    have hm : m = 0 := by
      apply Nat.eq_of_testBit_eq
      intro i
      have hb := congrArg (fun x => Nat.testBit x i) h
      simp only [Nat.testBit_lor, Nat.zero_testBit, Bool.or_eq_false_iff] at hb
      simp [hb.1]
    have hn : n = 0 := by
      apply Nat.eq_of_testBit_eq
      intro i
      have hb := congrArg (fun x => Nat.testBit x i) h
      simp only [Nat.testBit_lor, Nat.zero_testBit, Bool.or_eq_false_iff] at hb
      simp [hb.2]
    exact ⟨hm, hn⟩
  · rintro ⟨rfl, rfl⟩
    rfl

theorem ctcFold_fst_eq_zero (x : List Nat) : ∀ (y : List Nat) (v : Nat),
    x.length = y.length → ((ctcFold x y v).1 = 0 ↔ v = 0 ∧ x = y) := by
  induction x with
  | nil =>
    intro y v h
    cases y with
    | nil => simp [ctcFold]
    | cons b ys => simp at h
  | cons a xs ih =>
    intro y v h
    cases y with
    | nil => simp at h
    | cons b ys =>
      simp only [List.length_cons, Nat.add_right_cancel_iff] at h
      have hrec := ih ys (v ||| (a ^^^ b)) h
      simp only [ctcFold] at hrec ⊢
      rw [hrec, lor_eq_zero_iff', Nat.xor_eq_zero]
      constructor
      · rintro ⟨⟨hv, hab⟩, hxs⟩
        exact ⟨hv, by rw [hab, hxs]⟩
      · rintro ⟨hv, heq⟩
        have h1 : a = b := by injection heq
        have h2 : xs = ys := by injection heq
        exact ⟨⟨hv, h1⟩, h2⟩

theorem ctcFold_snd (x : List Nat) : ∀ (y : List Nat) (v : Nat),
    (ctcFold x y v).2 = min x.length y.length := by
  induction x with
  | nil =>
    intro y v
    cases y <;> simp [ctcFold]
  | cons a xs ih =>
    intro y v
    cases y with
    | nil => simp [ctcFold]
    | cons b ys =>
      simp only [ctcFold, ih, List.length_cons]
      omega

theorem constantTimeCompare_eq (x y : List Nat) :
    constantTimeCompare x y = if x = y then 1 else 0 := by
  unfold constantTimeCompare
  by_cases hlen : x.length = y.length
  · simp only [hlen, ne_eq, not_true_eq_false, if_false]
    by_cases hxy : x = y
    · have h0 : (ctcFold x y 0).1 = 0 :=
        (ctcFold_fst_eq_zero x y 0 hlen).mpr ⟨rfl, hxy⟩
      subst hxy
      simp [h0]
    · have h0 : (ctcFold x y 0).1 ≠ 0 := fun hc =>
        hxy ((ctcFold_fst_eq_zero x y 0 hlen).mp hc).2
      simp [h0, hxy]
  · have hne : x ≠ y := fun hc => hlen (by rw [hc])
    simp [hlen, hne]

/-! ### Claim C4 -/

/-- C4: for every input whose split on the colon delimiter does not
yield exactly two parts (zero delimiters, or two or more, including
registry addresses embedding a port), `Validate` fails with the
malformed-reference error, whatever the allow list and the
collaborators are — so before any allow-list check or lookup. -/
theorem validate_malformed_reference (s : NotaryService) (image : String)
    (h : (goSplit image).length ≠ 2) :
    Validate s image = .error "image name is not formatted correctly" := by
  simp [Validate, h]

theorem validate_malformed_reference_witness :
    (goSplit "repo:port/image-name:tag").length ≠ 2 ∧
    Validate exampleService "repo:port/image-name:tag" =
      .error "image name is not formatted correctly" :=
  ⟨by decide,
   validate_malformed_reference exampleService "repo:port/image-name:tag" (by decide)⟩

/-! ### Claim C2 -/

/-- C2: a two-part reference whose repository starts with some entry of
the allow list validates successfully for every possible trust-client
factory and registry collaborator (so neither is consulted), and
replacing the allow list by any permutation of it — together with
arbitrary other collaborators — still yields success: the entries'
order does not affect the decision. -/
theorem validate_allowlist_bypass
    (regs regs' : List String)
    (f f' : String → Except GoErr (String → Except GoErr Target))
    (rf rf' : String → Except GoErr (List Nat))
    (image imgRepo imgTag : String)
    (hperm : regs.Perm regs')
    (hsplit : goSplit image = [imgRepo, imgTag])
    (hallow : isImageAllowed ⟨regs, f, rf⟩ imgRepo = true) :
    Validate ⟨regs, f, rf⟩ image = .ok () ∧
    Validate ⟨regs', f', rf'⟩ image = .ok () := by
  have hallow' : isImageAllowed ⟨regs', f', rf'⟩ imgRepo = true := by
    simp only [isImageAllowed] at hallow ⊢
    rcases List.any_eq_true.mp hallow with ⟨x, hx, hpx⟩
    exact List.any_eq_true.mpr ⟨x, hperm.mem_iff.mp hx, hpx⟩
  exact ⟨by simp [Validate, hsplit, hallow], by simp [Validate, hsplit, hallow']⟩

theorem validate_allowlist_bypass_witness :
    (["a/", "b/"] : List String).Perm ["b/", "a/"] ∧
    goSplit "a/app:v1" = ["a/app", "v1"] ∧
    isImageAllowed ⟨["a/", "b/"], exampleService.NewRepoClient,
      exampleService.registryManifestDigest⟩ "a/app" = true ∧
    Validate ⟨["a/", "b/"], exampleService.NewRepoClient,
      exampleService.registryManifestDigest⟩ "a/app:v1" = .ok () ∧
    Validate ⟨["b/", "a/"], exampleOpenService.NewRepoClient,
      exampleOpenService.registryManifestDigest⟩ "a/app:v1" = .ok () :=
  ⟨List.Perm.swap "b/" "a/" [], by decide, by decide,
   (validate_allowlist_bypass ["a/", "b/"] ["b/", "a/"]
      exampleService.NewRepoClient exampleOpenService.NewRepoClient
      exampleService.registryManifestDigest exampleOpenService.registryManifestDigest
      "a/app:v1" "a/app" "v1"
      (List.Perm.swap "b/" "a/" []) (by decide) (by decide)).1,
   (validate_allowlist_bypass ["a/", "b/"] ["b/", "a/"]
      exampleService.NewRepoClient exampleOpenService.NewRepoClient
      exampleService.registryManifestDigest exampleOpenService.registryManifestDigest
      "a/app:v1" "a/app" "v1"
      (List.Perm.swap "b/" "a/" []) (by decide) (by decide)).2⟩

/-! ### Claim C10 -/

/-- C10: when the empty string is among the allow-list entries, every
two-part reference validates successfully — for every service carrying
that allow list, hence without any trust or registry lookup — because
the empty string is a leading substring of every repository. -/
theorem validate_empty_allowlist_entry
    (s : NotaryService) (image imgRepo imgTag : String)
    (hmem : "" ∈ s.AllowedRegistries)
    (hsplit : goSplit image = [imgRepo, imgTag]) :
    Validate s image = .ok () := by
  have hpre : strHasPre imgRepo "" = true := by
    unfold strHasPre
    cases imgRepo.toList <;> rfl
  have hallow : isImageAllowed s imgRepo = true :=
    List.any_eq_true.mpr ⟨"", hmem, hpre⟩
  simp [Validate, hsplit, hallow]

theorem validate_empty_allowlist_entry_witness :
    "" ∈ exampleOpenService.AllowedRegistries ∧
    goSplit "nginx:latest" = ["nginx", "latest"] ∧
    Validate exampleOpenService "nginx:latest" = .ok () :=
  ⟨by decide, by decide,
   validate_empty_allowlist_entry exampleOpenService "nginx:latest" "nginx" "latest"
     (by decide) (by decide)⟩

/-! ### Claim C1 -/

/-- C1: for a two-part reference whose repository is not allow-listed,
when both the trust-repository lookup and the registry fetch return a
digest, equal digests make `Validate` succeed and unequal digests make
it fail with the hash-mismatch error. -/
theorem validate_digest_comparison_decides
    (s : NotaryService) (image imgRepo imgTag : String) (dTrust dReg : List Nat)
    (hsplit : goSplit image = [imgRepo, imgTag])
    (hallow : isImageAllowed s imgRepo = false)
    (hnotary : getNotaryImageDigestHash s imgRepo imgTag = .ok dTrust)
    (hreg : getImageDigestHash s image = .ok dReg) :
    (dTrust = dReg → Validate s image = .ok ()) ∧
    (dTrust ≠ dReg → Validate s image = .error "unexpected image hash value") := by
  have hV : Validate s image =
      (if constantTimeCompare dReg dTrust = 0 then
        .error "unexpected image hash value" else .ok ()) := by
    simp [Validate, hsplit, hallow, hnotary, hreg]
  rw [constantTimeCompare_eq] at hV
  constructor
  · intro heq
    subst heq
    simpa using hV
  · intro hne
    have hne' : dReg ≠ dTrust := fun hc => hne hc.symm
    rw [hV]
    simp [hne']

theorem validate_digest_comparison_decides_witness :
    goSplit "nginx:latest" = ["nginx", "latest"] ∧
    isImageAllowed exampleService "nginx" = false ∧
    getNotaryImageDigestHash exampleService "nginx" "latest" = .ok [222, 173] ∧
    getImageDigestHash exampleService "nginx:latest" = .ok [222, 173] ∧
    Validate exampleService "nginx:latest" = .ok () ∧
    Validate exampleMismatchService "nginx:latest" =
      .error "unexpected image hash value" :=
  ⟨by decide, by decide, by decide, by decide,
   (validate_digest_comparison_decides exampleService "nginx:latest" "nginx" "latest"
      [222, 173] [222, 173] (by decide) (by decide) (by decide) (by decide)).1 rfl,
   (validate_digest_comparison_decides exampleMismatchService "nginx:latest" "nginx" "latest"
      [222, 173] [222, 174] (by decide) (by decide) (by decide) (by decide)).2 (by decide)⟩

/-! ### Claim C3 -/

/-- C3: the digest comparison `Validate` uses is structurally constant
time: on equal-length inputs its loop inspects every byte position (the
inspection count equals the full length, wherever the sequences
differ, so it never short-circuits on the first differing byte), and
whenever both digests are available `Validate`'s verdict is exactly the
outcome of `constantTimeCompare` on the two byte sequences. -/
theorem validate_comparison_constant_time :
    (∀ x y : List Nat, x.length = y.length → ctcInspected x y = x.length) ∧
    (∀ (s : NotaryService) (image imgRepo imgTag : String) (dTrust dReg : List Nat),
      goSplit image = [imgRepo, imgTag] →
      isImageAllowed s imgRepo = false →
      getNotaryImageDigestHash s imgRepo imgTag = .ok dTrust →
      getImageDigestHash s image = .ok dReg →
      Validate s image =
        (if constantTimeCompare dReg dTrust = 0 then
          .error "unexpected image hash value" else .ok ())) := by
  constructor
  · intro x y h
    unfold ctcInspected
    rw [ctcFold_snd, h, Nat.min_self]
  · intro s image imgRepo imgTag dTrust dReg hsplit hallow hnotary hreg
    simp [Validate, hsplit, hallow, hnotary, hreg]

theorem validate_comparison_constant_time_witness :
    (([10, 20, 30] : List Nat).length = ([10, 99, 30] : List Nat).length ∧
     ctcInspected [10, 20, 30] [10, 99, 30] = 3) ∧
    (goSplit "nginx:latest" = ["nginx", "latest"] ∧
     Validate exampleMismatchService "nginx:latest" =
       (if constantTimeCompare [222, 174] [222, 173] = 0 then
         .error "unexpected image hash value" else .ok ())) :=
  ⟨⟨rfl, validate_comparison_constant_time.1 [10, 20, 30] [10, 99, 30] rfl⟩,
   ⟨by decide,
    validate_comparison_constant_time.2 exampleMismatchService "nginx:latest"
      "nginx" "latest" [222, 173] [222, 174]
      (by decide) (by decide) (by decide) (by decide)⟩⟩

/-! ### Claim C5 -/

/-- C5: the trust-repository step fails with the empty-arguments error
exactly when repository or tag is empty; past that check, when the
client is constructed and the lookup succeeds, a target with zero
hashes fails with the missing-hash error, a target with more than one
fails with the ambiguous-hash error, and a target with exactly one
hash entry yields that digest. -/
theorem notary_digest_hash_error_cases
    (s : NotaryService) (c : String → Except GoErr Target) (t : Target)
    (imgRepo imgTag : String) :
    ((imgRepo.length = 0 ∨ imgTag.length = 0) →
      getNotaryImageDigestHash s imgRepo imgTag = .error "empty arguments provided") ∧
    (imgRepo.length ≠ 0 → imgTag.length ≠ 0 →
      s.NewRepoClient imgRepo = .ok c → c imgTag = .ok t →
      ((t.Hashes.length = 0 →
         getNotaryImageDigestHash s imgRepo imgTag = .error "image hash is missing") ∧
       (t.Hashes.length > 1 →
         getNotaryImageDigestHash s imgRepo imgTag = .error "more than one hash for image") ∧
       (∀ key hash, t.Hashes = [(key, hash)] →
         getNotaryImageDigestHash s imgRepo imgTag = .ok hash))) := by
  constructor
  · intro h
    simp [getNotaryImageDigestHash, h]
  · intro h1 h2 hf hc
    refine ⟨?_, ?_, ?_⟩
    · intro h0
      simp [getNotaryImageDigestHash, h1, h2, hf, hc, h0]
    · intro h0
      have hz : t.Hashes.length ≠ 0 := by omega
      simp [getNotaryImageDigestHash, h1, h2, hf, hc, hz, h0]
    · intro key hash hone
      simp [getNotaryImageDigestHash, h1, h2, hf, hc, hone, lastKey, mapIndex]

theorem notary_digest_hash_error_cases_witness :
    getNotaryImageDigestHash exampleService "" "latest" =
      .error "empty arguments provided" ∧
    getNotaryImageDigestHash exampleService "nginx" "latest" = .ok [222, 173] ∧
    getNotaryImageDigestHash exampleEmptyService "nginx" "latest" =
      .error "image hash is missing" ∧
    getNotaryImageDigestHash exampleAmbiguousService "nginx" "latest" =
      .error "more than one hash for image" :=
  ⟨(notary_digest_hash_error_cases exampleService exampleClient exampleTarget
      "" "latest").1 (Or.inl rfl),
   ((notary_digest_hash_error_cases exampleService exampleClient exampleTarget
      "nginx" "latest").2 (by decide) (by decide) rfl rfl).2.2 "targets" [222, 173] rfl,
   ((notary_digest_hash_error_cases exampleEmptyService exampleEmptyClient
      exampleEmptyTarget "nginx" "latest").2 (by decide) (by decide) rfl rfl).1 rfl,
   ((notary_digest_hash_error_cases exampleAmbiguousService exampleAmbiguousClient
      exampleAmbiguousTarget "nginx" "latest").2 (by decide) (by decide) rfl rfl).2.1
     (by decide)⟩

/-! ### Claim C6 -/

/-- C6: for either webhook kind, when the live object is found the
reconciler compares only the webhook rule lists: equal lists yield a
successful no-op with no write, whatever the two objects' metadata
are; different lists yield exactly one update whose object is the
desired object carrying the live object's metadata. -/
theorem ensure_found_updates_only_on_webhook_drift
    (config : WebhookConfig)
    (mLive : MutatingWebhookConfiguration) (vLive : ValidatingWebhookConfiguration)
    (mcr mur vcr vur : Except GoErr Unit) :
    (((createMutatingWebhookConfiguration config).Webhooks = mLive.Webhooks →
       EnsureWebhookConfigurationFor MutatingWebhookType
         ⟨.found mLive, mcr, mur⟩ ⟨.found vLive, vcr, vur⟩ config = (.ok (), [])) ∧
     ((createMutatingWebhookConfiguration config).Webhooks ≠ mLive.Webhooks →
       EnsureWebhookConfigurationFor MutatingWebhookType
         ⟨.found mLive, mcr, mur⟩ ⟨.found vLive, vcr, vur⟩ config =
         (wrapErr "while updating webhook mutation configuration" mur,
          [WriteOp.updateM
            { createMutatingWebhookConfiguration config with
              ObjectMeta := mLive.ObjectMeta }]))) ∧
    (((createValidatingWebhookConfiguration config).Webhooks = vLive.Webhooks →
       EnsureWebhookConfigurationFor ValidatingWebHookType
         ⟨.found mLive, mcr, mur⟩ ⟨.found vLive, vcr, vur⟩ config = (.ok (), [])) ∧
     ((createValidatingWebhookConfiguration config).Webhooks ≠ vLive.Webhooks →
       EnsureWebhookConfigurationFor ValidatingWebHookType
         ⟨.found mLive, mcr, mur⟩ ⟨.found vLive, vcr, vur⟩ config =
         (vur,
          [WriteOp.updateV
            { createValidatingWebhookConfiguration config with
              ObjectMeta := vLive.ObjectMeta }]))) := by
  refine ⟨⟨?_, ?_⟩, ⟨?_, ?_⟩⟩ <;> intro h <;>
    simp [EnsureWebhookConfigurationFor, ensureMutatingWebhookConfigFor,
      ensureValidatingWebhookConfigFor, MutatingWebhookType, ValidatingWebHookType, h]

theorem ensure_found_updates_only_on_webhook_drift_witness :
    ((createMutatingWebhookConfiguration exampleConfig).Webhooks =
      ({ createMutatingWebhookConfiguration exampleConfig with
         ObjectMeta := exampleMeta } : MutatingWebhookConfiguration).Webhooks) ∧
    EnsureWebhookConfigurationFor MutatingWebhookType
      ⟨.found { createMutatingWebhookConfiguration exampleConfig with
                ObjectMeta := exampleMeta }, .ok (), .ok ()⟩
      ⟨.found { createValidatingWebhookConfiguration exampleConfig with
                ObjectMeta := exampleMeta }, .ok (), .ok ()⟩
      exampleConfig = (.ok (), []) ∧
    EnsureWebhookConfigurationFor MutatingWebhookType
      ⟨.found ⟨exampleMeta, []⟩, .ok (), .ok ()⟩
      ⟨.found ⟨exampleMeta, []⟩, .ok (), .ok ()⟩ exampleConfig =
      (wrapErr "while updating webhook mutation configuration" (.ok ()),
       [WriteOp.updateM
         { createMutatingWebhookConfiguration exampleConfig with
           ObjectMeta := exampleMeta }]) ∧
    EnsureWebhookConfigurationFor ValidatingWebHookType
      ⟨.found { createMutatingWebhookConfiguration exampleConfig with
                ObjectMeta := exampleMeta }, .ok (), .ok ()⟩
      ⟨.found { createValidatingWebhookConfiguration exampleConfig with
                ObjectMeta := exampleMeta }, .ok (), .ok ()⟩
      exampleConfig = (.ok (), []) ∧
    EnsureWebhookConfigurationFor ValidatingWebHookType
      ⟨.found ⟨exampleMeta, []⟩, .ok (), .ok ()⟩
      ⟨.found ⟨exampleMeta, []⟩, .ok (), .ok ()⟩ exampleConfig =
      (.ok (),
       [WriteOp.updateV
         { createValidatingWebhookConfiguration exampleConfig with
           ObjectMeta := exampleMeta }]) :=
  ⟨by decide,
   (ensure_found_updates_only_on_webhook_drift exampleConfig
      { createMutatingWebhookConfiguration exampleConfig with ObjectMeta := exampleMeta }
      { createValidatingWebhookConfiguration exampleConfig with ObjectMeta := exampleMeta }
      (.ok ()) (.ok ()) (.ok ()) (.ok ())).1.1 (by decide),
   (ensure_found_updates_only_on_webhook_drift exampleConfig
      ⟨exampleMeta, []⟩ ⟨exampleMeta, []⟩
      (.ok ()) (.ok ()) (.ok ()) (.ok ())).1.2 (by decide),
   (ensure_found_updates_only_on_webhook_drift exampleConfig
      { createMutatingWebhookConfiguration exampleConfig with ObjectMeta := exampleMeta }
      { createValidatingWebhookConfiguration exampleConfig with ObjectMeta := exampleMeta }
      (.ok ()) (.ok ()) (.ok ()) (.ok ())).2.1 (by decide),
   (ensure_found_updates_only_on_webhook_drift exampleConfig
      ⟨exampleMeta, []⟩ ⟨exampleMeta, []⟩
      (.ok ()) (.ok ()) (.ok ()) (.ok ())).2.2 (by decide)⟩

/-! ### Claim C7 -/

/-- C7: the desired webhook objects are built deterministically from
the configuration: the mutating webhook is fail-closed with the
never-reinvocation policy, exact match policy, cluster-wide scope, no
side effects, Create/Update on pods, port 443, a 15-second timeout and
the v1beta1/v1 admission-review versions; the validating webhook
repeats the same scope, operations, resource, timeout, port and
versions but is fail-open and routes to the pod-validation path. -/
theorem desired_webhook_construction_fixed (config : WebhookConfig) :
    (getFunctionMutatingWebhookCfg config).FailurePolicy = some .Fail ∧
    (getFunctionMutatingWebhookCfg config).ReinvocationPolicy =
      some .NeverReinvocationPolicy ∧
    (getFunctionMutatingWebhookCfg config).MatchPolicy = some .Exact ∧
    (getFunctionMutatingWebhookCfg config).SideEffects = some .NoneClass ∧
    (getFunctionMutatingWebhookCfg config).Rules =
      [{ Rule := { APIGroups := [""], APIVersions := ["v1"], Resources := ["pods"],
                   Scope := some .AllScopes },
         Operations := [.Create, .Update] }] ∧
    (getFunctionMutatingWebhookCfg config).ClientConfig.Service =
      some { Namespace := config.ServiceNamespace, Name := config.ServiceName,
             Path := some defaultingWebhookPath, Port := some 443 } ∧
    (getFunctionMutatingWebhookCfg config).TimeoutSeconds = some 15 ∧
    (getFunctionMutatingWebhookCfg config).AdmissionReviewVersions = ["v1beta1", "v1"] ∧
    (createValidatingWebhookConfiguration config).Webhooks =
      [{ Name := ValidationWebhookName
         AdmissionReviewVersions := (getFunctionMutatingWebhookCfg config).AdmissionReviewVersions
         ClientConfig :=
           { CABundle := config.CABundel
             Service := some { Namespace := config.ServiceNamespace,
                               Name := config.ServiceName,
                               Path := some PodValidationPath, Port := some 443 } }
         FailurePolicy := some .Ignore
         MatchPolicy := some .Exact
         Rules := (getFunctionMutatingWebhookCfg config).Rules
         SideEffects := some .NoneClass
         TimeoutSeconds := (getFunctionMutatingWebhookCfg config).TimeoutSeconds }] :=
  ⟨rfl, rfl, rfl, rfl, rfl, rfl, rfl, rfl, rfl⟩

/-! ### Claim C8 -/

/-- C8, counterexample to the claim as stated: a fetch error other than
not-found is not returned to the caller as-is — at the concrete fetch
error `"boom"` the mutating reconciler returns a different (wrapped)
error. -/
theorem ensure_fetch_error_not_surfaced_as_is :
    (EnsureWebhookConfigurationFor MutatingWebhookType
       ⟨.otherErr "boom", .ok (), .ok ()⟩ ⟨.otherErr "boom", .ok (), .ok ()⟩
       exampleConfig).1 ≠ .error "boom" := by decide

/-- C8, amended: for every webhook kind, a not-found fetch builds the
desired object from the configuration and creates it (one create, no
retry); any other fetch error is surfaced wrapped with a contextual
message naming the webhook configuration, with no write and no
internal retry. -/
theorem ensure_notfound_creates_fetch_error_wrapped
    (config : WebhookConfig)
    (mClient : ClusterClient MutatingWebhookConfiguration)
    (vClient : ClusterClient ValidatingWebhookConfiguration)
    (mcr mur vcr vur : Except GoErr Unit) (e : GoErr) :
    (EnsureWebhookConfigurationFor MutatingWebhookType ⟨.notFound, mcr, mur⟩ vClient config =
      (wrapErr "while creating webhook mutation configuration" mcr,
       [WriteOp.createM (createMutatingWebhookConfiguration config)])) ∧
    (EnsureWebhookConfigurationFor ValidatingWebHookType mClient ⟨.notFound, vcr, vur⟩ config =
      (vcr, [WriteOp.createV (createValidatingWebhookConfiguration config)])) ∧
    (EnsureWebhookConfigurationFor MutatingWebhookType ⟨.otherErr e, mcr, mur⟩ vClient config =
      (.error ("failed to get defaulting MutatingWebhookConfiguration: "
         ++ DefaultingWebhookName ++ ": " ++ e), [])) ∧
    (EnsureWebhookConfigurationFor ValidatingWebHookType mClient ⟨.otherErr e, vcr, vur⟩ config =
      (.error ("failed to get validation ValidatingWebhookConfiguration: "
         ++ ValidationWebhookName ++ ": " ++ e), [])) := by
  refine ⟨?_, ?_, ?_, ?_⟩ <;>
    simp [EnsureWebhookConfigurationFor, ensureMutatingWebhookConfigFor,
      ensureValidatingWebhookConfigFor, MutatingWebhookType, ValidatingWebHookType]

end Warden
